import Mathlib

/-!
Verification of the parameter-keyed caching pipeline of
`PST_Matlab_dspsr_PFB_inversion_comparison` (files `src/python/data_gen.py`
and `src/python/data_gen/util.py`).

The Python code is shallowly embedded: Python floats are modelled as exact
rationals (ℚ), Python ints as ℤ/ℕ, fallible code returns `Except PyError`,
and filesystem traffic is made explicit (an `FS` value for reads, a list of
`FSOp` values for writes).  Complex samples are kept symbolic: a sample of
`complex_sinusoid` is a finite sum of unit phasors, each recorded by the
exact coefficient of `2·π` in its angle together with the raw additive
phase, so that equality and inequality of samples are decidable.
-/

/-- Python errors that the embedded code can raise.  `sequencingViolation`
is the error class named by the specification for stage-order violations; it
has no counterpart in the source and is included so that statements about it
can be expressed. -/
inductive PyError where
  | typeError (msg : String)
  | indexError
  | keyError
  | attributeError (name : String)
  | unboundLocalError (name : String)
  | notImplementedError (msg : String)
  | fileNotFoundError (path : String)
  | runtimeError (msg : String)
  | stopIteration
  | sequencingViolation
deriving DecidableEq, Repr

/-- Python `int(q)` on a float: truncation toward zero. -/
def pyInt (q : ℚ) : ℤ := if 0 ≤ q then ⌊q⌋ else ⌈q⌉

/-- Zero-padding of a natural number below 1000 to three digits, the
fractional part of fixed three-decimal formatting. -/
def pad3 (k : ℕ) : String :=
  if k < 10 then "00" ++ toString k
  else if k < 100 then "0" ++ toString k
  else toString k

/-- Python `f"{q:.3f}"` on the rational model of a float: the value rounded
to the nearest thousandth (`⌊q·1000 + 1/2⌋`, the `round` function written
out), printed with exactly three decimal places. -/
def fmt3 (q : ℚ) : String :=
  let m : ℤ := ⌊q * 1000 + 1/2⌋
  let a : ℕ := m.natAbs
  (if m < 0 then "-" else "") ++ toString (a / 1000) ++ "." ++ pad3 (a % 1000)

/-- The numpy dtypes appearing in `matlab_dtype_lookup` (data_gen.py lines
31-36). -/
inductive NpDtype where
  | float32
  | float64
  | complex64
  | complex128
deriving DecidableEq, Repr

/-- data_gen.py lines 31-36: the dtype-to-tag lookup table. -/
def matlab_dtype_lookup : NpDtype → String
  | .float32 => "single"
  | .float64 => "double"
  | .complex64 => "single"
  | .complex128 => "double"

/-- data_gen.py line 38 and util.py line 19: the sidecar record name. -/
def meta_data_file_name : String := "meta.json"

/-- Model of `os.path.join(a, b)` for a non-empty first component without a
trailing separator and a relative second component, the only shape the
embedded code produces. -/
def pathJoin (a b : String) : String := a ++ "/" ++ b

/-- Structural split of a character list at a separator character, the
list-level counterpart of Python `str.split` with a one-character
separator. -/
def splitOnChar (c : Char) : List Char → List (List Char)
  | [] => [[]]
  | x :: xs =>
      match splitOnChar c xs with
      | [] => if x = c then [[], []] else [[x]]
      | h :: t => if x = c then [] :: h :: t else (x :: h) :: t

/-- Python `s.split(sep)` for a one-character separator. -/
def strSplitOn (s : String) (c : Char) : List String :=
  (splitOnChar c s.data).map List.asString

/-- Model of `os.path.basename`: the part after the last slash. -/
def pyBasename (s : String) : String := (strSplitOn s '/').getLastD s

/-- Model of `os.path.splitext(s)[0]`: everything before the last dot, the
whole string when there is no dot.  (The embedded code only applies it to
plain file names such as `a.dump`.) -/
def splitextBase (s : String) : String :=
  let parts := strSplitOn s '.'
  if parts.length ≤ 1 then s
  else String.intercalate "." (parts.dropLast)

/-- data_gen.py lines 58-66 (`_create_output_file_names`), identical to
util.py lines 90-98: given an optional explicit output file name and the
default base, produce `(output_base, log_file_name, output_file_name)`.
When no explicit name is given, the data file is the base plus `.dump`; the
log file is always the base plus `.log`. -/
def create_output_file_names (output_file_name : Option String)
    (default_base : String) : String × String × String :=
  match output_file_name with
  | none => (default_base, default_base ++ ".log", default_base ++ ".dump")
  | some name =>
      let output_base := splitextBase name
      (output_base, output_base ++ ".log", name)

/-- data_gen.py lines 153-166: the canonical output base name.  The source
first fills `n_bins`, `args`, `n_pol`, `dtype` and `backend` into the
template `"\x7b\x7bfunc_name\x7d\x7d.\x7bn_bins\x7d.\x7bargs\x7d.\x7bn_pol\x7d.\x7bdtype\x7d.\x7bbackend\x7d"`
(each numeric argument formatted with three decimal places and joined with
a dash) and later fills `func_name`; the composed result is this
concatenation. -/
def canonical_output_base (func_name : String) (n_bins : ℕ) (args : List ℚ)
    (n_pol : ℕ) (dtype : NpDtype) (backend : String) : String :=
  func_name ++ "." ++ toString n_bins ++ "."
    ++ String.intercalate "-" (args.map fmt3) ++ "."
    ++ toString n_pol ++ "." ++ matlab_dtype_lookup dtype ++ "." ++ backend

/-- The two signal domains (data_gen.py lines 170-173 and 197-200). -/
inductive Domain where
  | time
  | freq
deriving DecidableEq, Repr

/-- The Python string naming a domain. -/
def domainStr : Domain → String
  | .time => "time"
  | .freq => "freq"

/-- data_gen.py lines 197-200: `func_lookup[domain_name].__name__`, the
function identity used by the python backend for canonical naming. -/
def python_func_name : Domain → String
  | .time => "time_domain_impulse"
  | .freq => "complex_sinusoid"

/-- A single unit phasor `exp(i·(2·π·turns + phase))`: `turns` is the exact
coefficient of `2·π` in the angle and `phase` the raw additive phase in
radians.  Two phasors with the same phase denote the same complex number
exactly when their `turns` agree modulo 1. -/
structure PhasorTerm where
  turns : ℚ
  phase : ℚ
deriving DecidableEq, Repr

/-- A symbolic complex sample: the ordered sum of unit phasors accumulated
by `sig +=` in the source. -/
abbrev CSample := List PhasorTerm

/-- Canonical form of a sample, reducing every `turns` coefficient modulo 1;
phasors with equal phases denote equal complex numbers iff their canonical
`turns` agree. -/
def canonSample (s : CSample) : List (ℚ × ℚ) :=
  s.map (fun tm => (Int.fract tm.turns, tm.phase))

/-- The `freqs`/`phases` argument pair of `complex_sinusoid` (data_gen.py
lines 80-82): either both scalars, promoted to singleton lists by the
`hasattr(freqs, "__iter__")` check, or both lists. -/
inductive FPArgs where
  | scalars (f p : ℚ)
  | lists (fs ps : List ℚ)
deriving DecidableEq, Repr

/-- The promotion performed by data_gen.py lines 80-82. -/
def promoteFP : FPArgs → List ℚ × List ℚ
  | .scalars f p => ([f], [p])
  | .lists fs ps => (fs, ps)

/-- data_gen.py lines 69-88 (`complex_sinusoid`): sample `t`, for
`t = 0..n-1`, is the sum over `i` of
`exp(1j*(2*np.pi*(int(n*freqs[i]) + bin_offset)/n*t + phases[i]))`.
The loop indexes `phases[i]` for every `i < len(freqs)`, so a shorter
`phases` list raises IndexError; extra entries of `phases` are ignored.
The `dtype` argument only selects the output precision and is dropped by
the exact model. -/
def complex_sinusoid (n : ℕ) (a : FPArgs) (bin_offset : ℚ) :
    Except PyError (List CSample) :=
  let (freqs, phases) := promoteFP a
  if freqs.length ≤ phases.length then
    .ok ((List.range n).map (fun (t : ℕ) =>
      (freqs.zip phases).map (fun fp =>
        ⟨(((pyInt ((n : ℚ) * fp.1) : ℤ) : ℚ) + bin_offset) / (n : ℚ) * (t : ℚ),
         fp.2⟩)))
  else .error .indexError

/-- The claim C7 formula, written from the specification words: the bin of
component `i` is `round(n*freqs[i])`, the nearest integer to `n*freqs[i]`. -/
def complex_sinusoid_round_spec (n : ℕ) (freqs phases : List ℚ)
    (bin_offset : ℚ) : List CSample :=
  (List.range n).map (fun (t : ℕ) =>
    (freqs.zip phases).map (fun fp =>
      ⟨(((round ((n : ℚ) * fp.1) : ℤ) : ℚ) + bin_offset) / (n : ℚ) * (t : ℚ),
       fp.2⟩))

/-- The amended C7 formula: as the specification words it, but with the bin
of component `i` given by Python `int(n*freqs[i])`, truncation toward zero,
instead of rounding to the nearest integer. -/
def complex_sinusoid_trunc_spec (n : ℕ) (freqs phases : List ℚ)
    (bin_offset : ℚ) : List CSample :=
  (List.range n).map (fun (t : ℕ) =>
    (freqs.zip phases).map (fun fp =>
      ⟨(((pyInt ((n : ℚ) * fp.1) : ℤ) : ℚ) + bin_offset) / (n : ℚ) * (t : ℚ),
       fp.2⟩))

/-- The `offsets`/`widths` argument pair of `time_domain_impulse`
(data_gen.py lines 98-100), promoted the same way as `FPArgs`. -/
inductive OWArgs where
  | scalars (o : ℚ) (w : ℤ)
  | lists (os : List ℚ) (ws : List ℤ)
deriving DecidableEq, Repr

/-- The promotion performed by data_gen.py lines 98-100. -/
def promoteOW : OWArgs → List ℚ × List ℤ
  | .scalars o w => ([o], [w])
  | .lists os ws => (os, ws)

/-- Python sequence-index normalisation for a slice endpoint on a sequence
of length `n`: a negative index counts from the end, and the result is
clamped into `[0, n]`. -/
def pyNormIdx (n : ℕ) (i : ℤ) : ℕ :=
  (min (max 0 (if i < 0 then i + (n : ℤ) else i)) (n : ℤ)).toNat

/-- Model of the numpy slice assignment `sig[start:stop] = v`: every index
of the normalised half-open range is overwritten with `v`, the rest of the
sequence is unchanged. -/
def pySliceAssign (sig : List ℚ) (start stop : ℤ) (v : ℚ) : List ℚ :=
  (List.range sig.length).map (fun t =>
    if pyNormIdx sig.length start ≤ t ∧ t < pyNormIdx sig.length stop then v
    else sig.getD t 0)

/-- data_gen.py lines 91-107 (`time_domain_impulse`): starting from a zero
array of length `n`, for each `i` in order the slice
`sig[int(offsets[i]*n) : int(offsets[i]*n)+widths[i]]` is overwritten with
the real value 1.  The loop indexes `widths[i]` for every
`i < len(offsets)`, so a shorter `widths` list raises IndexError.  The
`dtype` argument is dropped by the exact model (for a complex dtype the
imaginary part stays zero). -/
def time_domain_impulse (n : ℕ) (a : OWArgs) : Except PyError (List ℚ) :=
  let (offsets, widths) := promoteOW a
  if offsets.length ≤ widths.length then
    .ok ((offsets.zip widths).foldl
      (fun sig ow => pySliceAssign sig (pyInt (ow.1 * (n : ℚ)))
        (pyInt (ow.1 * (n : ℚ)) + ow.2) 1)
      (List.replicate n 0))
  else .error .indexError

/-- Decidable equality on `Except`, so that concrete runs of the embedded
fallible code can be compared by `decide`. -/
instance {ε α : Type} [DecidableEq ε] [DecidableEq α] : DecidableEq (Except ε α) :=
  fun x y =>
    match x, y with
    | .ok a, .ok b =>
        if h : a = b then isTrue (by rw [h])
        else isFalse (fun he => by cases he; exact h rfl)
    | .error a, .error b =>
        if h : a = b then isTrue (by rw [h])
        else isFalse (fun he => by cases he; exact h rfl)
    | .ok _, .error _ => isFalse (fun he => by cases he)
    | .error _, .ok _ => isFalse (fun he => by cases he)

/-- The loop body of data_gen.py lines 202-204 for one sample: the cell of
polarization `i_pol` is overwritten with the sample value, the others kept. -/
def pySetAll (row : List α) (v : α) (n_pol : ℕ) : List α :=
  (List.range n_pol).foldl (fun r i => r.set i v) row

/-- data_gen.py lines 202-204, python backend: `np.zeros((n, 1, n_pol))`
followed by `output_data[:, 0, i_pol] = sig` for every `i_pol < n_pol`.
The slice assignment acts on each sample independently, so the loop over
polarizations is expressed per sample: sample `t` of the result is the
single middle plane holding a row of `n_pol` cells, every cell overwritten
in turn with `sig[t]` starting from the zero array. -/
def python_output_data (sig : List α) (zero : α) (n_pol : ℕ) :
    List (List (List α)) :=
  sig.map (fun s => [pySetAll (List.replicate n_pol zero) s n_pol])

/-- The python backend of `generate_test_vector` for the freq domain
(data_gen.py lines 196-217, data part): the generated signal replicated
over polarizations.  The complex zero of `np.zeros` is the empty phasor
sum. -/
def generate_output_data_freq (n : ℕ) (a : FPArgs) (bin_offset : ℚ)
    (n_pol : ℕ) : Except PyError (List (List (List CSample))) :=
  (complex_sinusoid n a bin_offset).map
    (fun sig => python_output_data sig [] n_pol)

/-- The python backend of `generate_test_vector` for the time domain
(data_gen.py lines 196-217, data part). -/
def generate_output_data_time (n : ℕ) (a : OWArgs) (n_pol : ℕ) :
    Except PyError (List (List (List ℚ))) :=
  (time_domain_impulse n a).map
    (fun sig => python_output_data sig 0 n_pol)

/-- Runtime values travelling through the untyped stage-argument tuples of
the producer protocol. -/
inductive PyVal where
  | int (i : ℤ)
  | rat (q : ℚ)
  | str (s : String)
  | dtype (d : NpDtype)
deriving DecidableEq, Repr

/-- Python `str()`/f-string formatting of a `PyVal` as used inside command
strings.  (The rational case stands for float repr; no settled claim
depends on its exact spelling.) -/
def pyValStr : PyVal → String
  | .int i => toString i
  | .rat q => toString q
  | .str s => s
  | .dtype d => matlab_dtype_lookup d

/-- Filesystem side effects performed by the embedded code.  `writeFile`
has no producer in the embedding because the source never writes a file
itself; it is included so that absence of metadata persistence is a
statement, not a typing accident. -/
inductive FSOp where
  | makedirs (path : String)
  | runCmd (cmd : String) (logFilePath : String)
  | writeFile (path : String)
deriving DecidableEq, Repr

/-- Environment oracle for external executable invocations: whether the
subprocess for a given command string exits with status zero. -/
def ExtEnv : Type := String → Bool

/-- data_gen.py line 27: the directory of the external executables.  The
concrete runtime value is machine dependent and irrelevant to every claim. -/
def build_dir : String := "build"

/-- The closures produced by `channelize` (data_gen.py lines 222-257) and
`synthesize` (lines 260-294): backend and captured construction arguments. -/
inductive StageFn where
  | channelizeMatlab (output_file_name : Option String) (output_dir : String)
  | channelizePython
  | synthesizeMatlab (output_file_name : Option String) (output_dir : String)
  | synthesizePython
deriving DecidableEq, Repr

/-- Whether a stage function is one of the two synthesis closures. -/
def isSynthStage : StageFn → Bool
  | .synthesizeMatlab _ _ => true
  | .synthesizePython => true
  | _ => false

/-- Outcome of calling a stage closure: the returned output path or the
raised error, together with the filesystem operations performed. -/
structure StageResult where
  result : Except PyError String
  fsOps : List FSOp
deriving DecidableEq, Repr

/-- Calling a stage closure on a positional argument tuple.

`channelizeMatlab` (lines 229-250): with exactly four arguments it formats
the default base `"channelize.\x7bchannels\x7d.\x7bos-joined\x7d"`, builds the command
string (the source omits the space between the filter path and the output
file name, reproduced here verbatim), runs it with stdout and stderr
redirected to the log file, raises RuntimeError on a non-zero exit, and on
success returns `os.path.join(output_dir, output_file_name)` where
`output_file_name` is the *closure* variable: when the closure was built
without an explicit output file name this is Python `None` and the join
raises TypeError.

`synthesizeMatlab` (lines 266-287): the body assigns `output_file_name` at
line 276, making it local to the whole body, so the read at line 272 raises
UnboundLocalError before anything else happens.

The python closures (lines 253-255 and 290-292) raise NotImplementedError
with no side effects; a tuple of the wrong arity raises TypeError at the
call itself. -/
def callStage (f : StageFn) (args : List PyVal) (env : ExtEnv) : StageResult :=
  match f with
  | .channelizePython =>
      if args.length = 3 then
        ⟨.error (.notImplementedError "channelize not implemented in Python"), []⟩
      else ⟨.error (.typeError "channelize positional argument count"), []⟩
  | .synthesizePython =>
      if args.length = 1 then
        ⟨.error (.notImplementedError "synthesize not implemented in Python"), []⟩
      else ⟨.error (.typeError "synthesize positional argument count"), []⟩
  | .synthesizeMatlab _ _ =>
      if args.length = 2 then
        ⟨.error (.unboundLocalError "output_file_name"), []⟩
      else ⟨.error (.typeError "synthesize positional argument count"), []⟩
  | .channelizeMatlab output_file_name output_dir =>
      match args with
      | [input, channels, os_factor, fir_filter] =>
          match os_factor with
          | .str os_factor_str =>
              let output_base := "channelize." ++ pyValStr channels ++ "."
                ++ String.intercalate "-" (strSplitOn os_factor_str '/')
              let names := create_output_file_names output_file_name output_base
              let cmd := pathJoin build_dir "channelize" ++ " "
                ++ pyValStr input ++ " " ++ pyValStr channels ++ " "
                ++ os_factor_str ++ " " ++ pyValStr fir_filter
                ++ names.2.2 ++ " " ++ output_dir ++ " 1"
              let logOp := FSOp.runCmd cmd (pathJoin output_dir names.2.1)
              if env cmd then
                match output_file_name with
                | some s => ⟨.ok (pathJoin output_dir s), [logOp]⟩
                | none => ⟨.error (.typeError "join on None"), [logOp]⟩
              else ⟨.error (.runtimeError "Exited with non zero status"), [logOp]⟩
          | _ => ⟨.error (.attributeError "split"), []⟩
      | _ => ⟨.error (.typeError "channelize positional argument count"), []⟩

/-- data_gen.py lines 222-257 (`channelize`): dispatch on the backend.  For
a backend other than matlab or python neither branch defines `_channelize`
and the trailing `return _channelize` raises UnboundLocalError. -/
def channelize (output_file_name : Option String) (output_dir : String)
    (backend : String) : Except PyError StageFn :=
  match backend with
  | "matlab" => .ok (.channelizeMatlab output_file_name output_dir)
  | "python" => .ok .channelizePython
  | _ => .error (.unboundLocalError "channelize inner function")

/-- data_gen.py lines 260-294 (`synthesize`): dispatch on the backend, with
the same fall-through behaviour as `channelize`. -/
def synthesize (output_file_name : Option String) (output_dir : String)
    (backend : String) : Except PyError StageFn :=
  match backend with
  | "matlab" => .ok (.synthesizeMatlab output_file_name output_dir)
  | "python" => .ok .synthesizePython
  | _ => .error (.unboundLocalError "synthesize inner function")

/-- The time-domain parameter set: `(offset, width)` (data_gen.py lines
333-336). -/
structure TimeParams where
  offset : ℚ
  width : ℚ
deriving DecidableEq, Repr

/-- The freq-domain parameter set: `(frequency, phase, bin_offset)`
(data_gen.py lines 333-336). -/
structure FreqParams where
  frequency : ℚ
  phase : ℚ
  bin_offset : ℚ
deriving DecidableEq, Repr

/-- A domain together with its named parameter mapping. -/
inductive Params where
  | time (p : TimeParams)
  | freq (p : FreqParams)
deriving DecidableEq, Repr

/-- The domain a parameter set belongs to. -/
def Params.dom : Params → Domain
  | .time _ => .time
  | .freq _ => .freq

/-- data_gen.py lines 328-331 and util.py lines 46-49
(`sub_dir_format_map`): the canonical cache subdirectory name,
`"o-\x7boffset:.3f\x7d_w-\x7bwidth:.3f\x7d"` for time and
`"f-\x7bfrequency:.3f\x7d_b-\x7bbin_offset:.3f\x7d_p-\x7bphase:.3f\x7d"` for freq. -/
def sub_dir_format : Params → String
  | .time p => "o-" ++ fmt3 p.offset ++ "_w-" ++ fmt3 p.width
  | .freq p => "f-" ++ fmt3 p.frequency ++ "_b-" ++ fmt3 p.bin_offset
      ++ "_p-" ++ fmt3 p.phase

/-- data_gen.py lines 333-336 and 371-372 (`domain_param_order`): the
parameter values in their fixed per-domain order. -/
def params_values : Params → List ℚ
  | .time p => [p.offset, p.width]
  | .freq p => [p.frequency, p.phase, p.bin_offset]

/-- A value of the decoded `meta.json` object: a numeric parameter or a
file basename. -/
inductive MetaVal where
  | num (q : ℚ)
  | str (s : String)
deriving DecidableEq, Repr

/-- A decoded metadata record: ordered key/value pairs of the JSON object. -/
abbrev MetaData := List (String × MetaVal)

/-- data_gen.py line 365, `meta_data = self.params.copy()`: the parameter
mapping as the initial metadata record. -/
def params_meta : Params → MetaData
  | .time p => [("offset", .num p.offset), ("width", .num p.width)]
  | .freq p => [("frequency", .num p.frequency), ("phase", .num p.phase),
      ("bin_offset", .num p.bin_offset)]

/-- The filesystem as the embedded code observes it: the set of existing
directories and the decodable metadata records by path. -/
structure FS where
  dirs : List String
  files : List (String × MetaData)
deriving DecidableEq, Repr

/-- The `params` argument of `find_existing_test_data`: a named mapping or
an ordered tuple (util.py lines 53-59). -/
inductive ParamsInput where
  | dict (p : Params)
  | tup (l : List ℚ)
deriving DecidableEq, Repr

/-- util.py lines 53-59: a tuple is promoted to the named mapping by the
per-domain argument order, reading `params[i]` for each name, so a short
tuple raises IndexError; a mapping is used as given. -/
def promote_params (domain_name : Domain) : ParamsInput → Except PyError Params
  | .dict p => .ok p
  | .tup l =>
      match domain_name, l with
      | .time, o :: w :: _ => .ok (.time ⟨o, w⟩)
      | .freq, f :: p :: b :: _ => .ok (.freq ⟨f, p, b⟩)
      | _, _ => .error .indexError

/-- util.py lines 30-70 (`find_existing_test_data`): computes
`sub_dir = sub_dir_formatter.format(**params_dict)` (KeyError when the
mapping does not carry the domain parameters) and
`sub_dir_full = os.path.join(base_dir, domain_name, sub_dir)`.  When
`sub_dir_full` exists it opens
`meta_data_file_path = os.path.join(sub_dir, meta_data_file_name)` — note:
joined onto the bare `sub_dir`, exactly as in the source line 66 — and
decodes the record there; a missing file at that path raises
FileNotFoundError.  When the directory does not exist it returns `None`. -/
def find_existing_test_data (base_dir : String) (domain_name : Domain)
    (params : ParamsInput) (fs : FS) : Except PyError (Option MetaData) :=
  match promote_params domain_name params with
  | .error e => .error e
  | .ok p =>
      if p.dom = domain_name then
        let sub_dir := sub_dir_format p
        let sub_dir_full :=
          pathJoin (pathJoin base_dir (domainStr domain_name)) sub_dir
        if fs.dirs.contains sub_dir_full then
          let meta_data_file_path := pathJoin sub_dir meta_data_file_name
          match fs.files.lookup meta_data_file_path with
          | some m => .ok (some m)
          | none => .error (.fileNotFoundError meta_data_file_path)
        else .ok none
      else .error .keyError

/-- Python `list.insert(i, v)`: insertion at position `i`, clamped to an
append when `i` exceeds the length. -/
def py_insert (l : List α) (i : ℕ) (v : α) : List α :=
  l.take i ++ v :: l.drop i

/-- data_gen.py lines 373-376: `test_vector_args.pop(0)` followed by
`test_vector_args.insert(i+1, v)` for each `(i, v)` in
`enumerate(vector_params)`.  (This code sits after the call at lines
368-370 that always raises, so it is unreachable at runtime; it is
embedded to settle what argument list it would build.) -/
def interleave_vector_params (test_vector_args : List PyVal)
    (vector_params : List PyVal) : List PyVal :=
  vector_params.enum.foldl (fun l iv => py_insert l (iv.1 + 1) iv.2)
    test_vector_args.tail

/-- The states of one `DataVectorProducer` run (data_gen.py lines 338-399),
the generator made explicit.  `awaitChannelize` and `awaitSynthesize` carry
the binding of the local `f`, which the source sets to the channelize
closure at line 380 and never rebinds. -/
inductive ProdState where
  | awaitGenerate (output_dir : String) (meta0 : MetaData) (params : Params)
  | awaitChannelize (output_dir : String) (meta0 : MetaData)
      (input_file_path : String) (f : StageFn)
  | awaitSynthesize (output_dir : String) (meta0 : MetaData)
      (input_file_path : String) (channelized_file_path : String) (f : StageFn)
  | finished (meta_data : MetaData)
  | crashed (e : PyError)
deriving DecidableEq, Repr

/-- data_gen.py lines 389-396: the metadata record assembled at the end of
the pipeline, the params copy extended with the basenames of the three
stage outputs. -/
def assembleMeta (meta0 : MetaData) (input_file_path channelized_file_path
    synthesized_file_path : String) : MetaData :=
  meta0 ++ [("input_file", .str (pyBasename input_file_path)),
    ("channelized_file", .str (pyBasename channelized_file_path)),
    ("inverted_file", .str (pyBasename synthesized_file_path))]

/-- data_gen.py line 380: the stage closure the producer binds to `f`,
`channelize(output_dir=output_dir)` with the defaults
`output_file_name=None` and `backend="matlab"`. -/
def producerStageF (output_dir : String) : Except PyError StageFn :=
  channelize none output_dir "matlab"

/-- `DataVectorProducer.__init__` together with the priming `next` of the
`coro` decorator (data_gen.py lines 297-304, 338-363): format the cache
subdirectory, compute `sub_dir_full = os.path.join(base_dir, domain_name,
sub_dir)`.  On a cache hit the generator body has no `yield`: it opens
`os.path.join(sub_dir, meta_data_file_name)` — the bare `sub_dir`, source
line 356 — raising FileNotFoundError when nothing is there, and when the
record does decode, the body runs to its end and the priming `next` raises
StopIteration out of the constructor (the record was assigned to the
half-built object the caller never receives).  On a miss it creates the
subdirectory and suspends at the first `yield` (line 367). -/
def initProducer (base_dir : String) (params : Params) (fs : FS) :
    Except PyError (ProdState × FS) :=
  let sub_dir := sub_dir_format params
  let sub_dir_full :=
    pathJoin (pathJoin base_dir (domainStr params.dom)) sub_dir
  if fs.dirs.contains sub_dir_full then
    let meta_data_file_path := pathJoin sub_dir meta_data_file_name
    match fs.files.lookup meta_data_file_path with
    | some _ => .error .stopIteration
    | none => .error (.fileNotFoundError meta_data_file_path)
  else
    .ok (.awaitGenerate sub_dir_full (params_meta params) params,
      { fs with dirs := sub_dir_full :: fs.dirs })

/-- Outcome of one `send` on the producer: the successor state, what the
`send` call itself returns or raises, the stage closures invoked with their
argument tuples, and the filesystem operations performed. -/
structure StepOut where
  next : ProdState
  res : Except PyError Unit
  invoked : List (StageFn × List PyVal)
  fsOps : List FSOp
deriving DecidableEq, Repr

/-- One `send(args)` on the producer (data_gen.py lines 367-399).

At the first suspension (lines 367-378) the source evaluates
`test_vector_args[0]` (IndexError on an empty tuple) and then calls
`generate_test_vector(self.domain_name, output_dir=output_dir,
n_pol=test_vector_args[0])`; `generate_test_vector` (line 110) has the
signature `(backend="matlab")`, so Python argument binding raises
TypeError for the keyword `output_dir` before any body runs.  The rest of
the segment, including `interleave_vector_params` and the generator stage,
is unreachable.  An exception terminates the generator, so the producer is
left crashed and later `send` calls raise StopIteration.

At the second suspension (lines 381-384) the supplied tuple is passed to
`f` unchanged — line 382 prepends `input_file_path` to a variable named
`synthesized_args` that is immediately overwritten, so the prepended form
is never used — and `f` is whatever closure is carried, with no
validation of the tuple.

At the third suspension (lines 385-387) the supplied tuple, with
`channelized_file_path` prepended, is passed to the same carried `f`; the
source never rebinds `f` to a synthesize closure.  If that call returned,
the body would assemble the record, assign it to `self.meta_data` — with
no filesystem write anywhere — and run off its end, so the delivering
`send` raises StopIteration. -/
def sendStep (s : ProdState) (t : List PyVal) (env : ExtEnv) : StepOut :=
  match s with
  | .awaitGenerate _ _ _ =>
      match t with
      | [] => ⟨.crashed .indexError, .error .indexError, [], []⟩
      | _ :: _ =>
          let e := PyError.typeError
            "generate_test_vector got an unexpected keyword argument output_dir"
          ⟨.crashed e, .error e, [], []⟩
  | .awaitChannelize output_dir meta0 input_file_path f =>
      let r := callStage f t env
      match r.result with
      | .error e => ⟨.crashed e, .error e, [(f, t)], r.fsOps⟩
      | .ok channelized_file_path =>
          ⟨.awaitSynthesize output_dir meta0 input_file_path
              channelized_file_path f,
            .ok (), [(f, t)], r.fsOps⟩
  | .awaitSynthesize _ meta0 input_file_path channelized_file_path f =>
      let args := PyVal.str channelized_file_path :: t
      let r := callStage f args env
      match r.result with
      | .error e => ⟨.crashed e, .error e, [(f, args)], r.fsOps⟩
      | .ok synthesized_file_path =>
          ⟨.finished (assembleMeta meta0 input_file_path
              channelized_file_path synthesized_file_path),
            .error .stopIteration, [(f, args)], r.fsOps⟩
  | .finished m => ⟨.finished m, .error .stopIteration, [], []⟩
  | .crashed e => ⟨.crashed e, .error .stopIteration, [], []⟩

unseal Rat.mul Rat.add Rat.inv in
/-- C6 (confirmed): for every function identity, size, ordered argument
list, polarization count, dtype and backend, the canonical basename is the
dot-joined template with each argument formatted to exactly three decimal
places and joined with a dash, with `.dump` appended for the data file and
`.log` for the log file; and the freq-domain instance with n=1000,
args=[0.1], n_pol=2, single-precision complex dtype and backend "python"
yields `complex_sinusoid.1000.0.100.2.single.python.dump`. -/
theorem c6_canonical_naming :
    (∀ (func_name : String) (n_bins : ℕ) (args : List ℚ) (n_pol : ℕ)
        (dtype : NpDtype) (backend : String),
      create_output_file_names none
          (canonical_output_base func_name n_bins args n_pol dtype backend) =
        (func_name ++ "." ++ toString n_bins ++ "."
            ++ String.intercalate "-" (args.map fmt3) ++ "."
            ++ toString n_pol ++ "." ++ matlab_dtype_lookup dtype
            ++ "." ++ backend,
          canonical_output_base func_name n_bins args n_pol dtype backend
            ++ ".log",
          canonical_output_base func_name n_bins args n_pol dtype backend
            ++ ".dump")) ∧
    (create_output_file_names none
        (canonical_output_base (python_func_name .freq) 1000 [1/10] 2
          .complex64 "python")).2.2 =
      "complex_sinusoid.1000.0.100.2.single.python.dump" := by
  refine ⟨fun func_name n_bins args n_pol dtype backend => rfl, ?_⟩
  decide

unseal Rat.mul Rat.add Rat.inv Rat.sub in
/-- C7 counterexample: with n=10, freqs=[0.19], phases=[0], bin_offset=0
the code computes the bin as `int(10*0.19) = 1` while the claim's
round-to-nearest formula gives bin 2, so the produced signal differs from
the claimed superposition — both as raw phasor descriptions and after
reducing every angle modulo one full turn (sample 1 is exp(2πi/10) under
the code and exp(2πi/5) under the claim, distinct complex numbers). -/
theorem c7_counterexample :
    complex_sinusoid 10 (.lists [19/100] [0]) 0 ≠
      .ok (complex_sinusoid_round_spec 10 [19/100] [0] 0) ∧
    (complex_sinusoid 10 (.lists [19/100] [0]) 0).map
        (fun sig => sig.map canonSample) ≠
      .ok ((complex_sinusoid_round_spec 10 [19/100] [0] 0).map canonSample) := by
  constructor <;> decide

/-- C7 (corrected): for every n, freqs, phases and bin_offset with the
phase list at least as long as the frequency list, `complex_sinusoid`
produces sample t as the superposition over i of
`exp(i*(2*pi*(int(n*freqs[i]) + bin_offset)/n*t + phases[i]))`, where
`int` is Python truncation toward zero (not rounding to the nearest
integer bin); scalar freqs/phases are treated as single-element lists. -/
theorem c7_truncated_bin :
    (∀ (n : ℕ) (freqs phases : List ℚ) (bin_offset : ℚ),
        freqs.length ≤ phases.length →
        complex_sinusoid n (.lists freqs phases) bin_offset =
          .ok (complex_sinusoid_trunc_spec n freqs phases bin_offset)) ∧
    (∀ (n : ℕ) (f p bin_offset : ℚ),
        complex_sinusoid n (.scalars f p) bin_offset =
          complex_sinusoid n (.lists [f] [p]) bin_offset) := by
  constructor
  · intro n freqs phases bin_offset h
    simp [complex_sinusoid, promoteFP, complex_sinusoid_trunc_spec, h]
  · intro n f p bin_offset
    rfl

/-- Witness for `c7_truncated_bin` at n=10, freqs=[0.19], phases=[0]. -/
theorem c7_truncated_bin_witness :
    complex_sinusoid 10 (.lists [19/100] [0]) 0 =
      .ok (complex_sinusoid_trunc_spec 10 [19/100] [0] 0) :=
  c7_truncated_bin.1 10 [19/100] [0] 0 (by decide)

/-- C9 (confirmed): under the "python" backend both `channelize` and
`synthesize` hand back the pure-backend closure, and calling that closure
with a proper argument tuple raises NotImplementedError immediately; no
filesystem operation is performed for any argument tuple. -/
theorem c9_python_backend_not_implemented :
    ∀ (ofn : Option String) (odir : String) (cargs sargs : List PyVal)
      (env : ExtEnv),
      channelize ofn odir "python" = .ok .channelizePython ∧
      synthesize ofn odir "python" = .ok .synthesizePython ∧
      (callStage .channelizePython cargs env).fsOps = [] ∧
      (callStage .synthesizePython sargs env).fsOps = [] ∧
      (cargs.length = 3 →
        (callStage .channelizePython cargs env).result =
          .error (.notImplementedError "channelize not implemented in Python")) ∧
      (sargs.length = 1 →
        (callStage .synthesizePython sargs env).result =
          .error (.notImplementedError "synthesize not implemented in Python")) := by
  intro ofn odir cargs sargs env
  refine ⟨rfl, rfl, ?_, ?_, ?_, ?_⟩
  · by_cases h : cargs.length = 3 <;> simp [callStage, h]
  · by_cases h : sargs.length = 1 <;> simp [callStage, h]
  · intro h; simp [callStage, h]
  · intro h; simp [callStage, h]

/-- Witness for `c9_python_backend_not_implemented` with a three-element
channelize tuple and a one-element synthesize tuple. -/
theorem c9_python_backend_not_implemented_witness :
    channelize none "out" "python" = .ok .channelizePython ∧
    synthesize none "out" "python" = .ok .synthesizePython ∧
    (callStage .channelizePython [.int 8, .str "8/7", .str "fir.mat"]
      (fun _ => true)).fsOps = [] ∧
    (callStage .synthesizePython [.int 16384] (fun _ => true)).fsOps = [] ∧
    ([PyVal.int 8, .str "8/7", .str "fir.mat"].length = 3 →
      (callStage .channelizePython [.int 8, .str "8/7", .str "fir.mat"]
        (fun _ => true)).result =
        .error (.notImplementedError "channelize not implemented in Python")) ∧
    ([PyVal.int 16384].length = 1 →
      (callStage .synthesizePython [.int 16384] (fun _ => true)).result =
        .error (.notImplementedError "synthesize not implemented in Python")) :=
  c9_python_backend_not_implemented none "out"
    [.int 8, .str "8/7", .str "fir.mat"] [.int 16384] (fun _ => true)

/-- Folding clamped insertions of the enumerated list `ps` at positions
`k+1, k+2, ...` into `pre ++ suf` with `pre` of length `k+1` splices `ps`
between `pre` and `suf`. -/
theorem py_insert_fold_enumFrom (ps : List PyVal) :
    ∀ (k : ℕ) (pre suf : List PyVal), pre.length = k + 1 →
      (List.enumFrom k ps).foldl (fun l iv => py_insert l (iv.1 + 1) iv.2)
          (pre ++ suf) =
        pre ++ ps ++ suf := by
  induction ps with
  | nil => intro k pre suf _; simp
  | cons v ps ih =>
      intro k pre suf h
      have hins : py_insert (pre ++ suf) (k + 1) v = (pre ++ [v]) ++ suf := by
        simp [py_insert, List.take_left' h, List.drop_left' h]
      calc (List.enumFrom k (v :: ps)).foldl
              (fun l iv => py_insert l (iv.1 + 1) iv.2) (pre ++ suf)
          = (List.enumFrom (k + 1) ps).foldl
              (fun l iv => py_insert l (iv.1 + 1) iv.2) ((pre ++ [v]) ++ suf) := by
            simp [List.enumFrom, hins]
        _ = (pre ++ [v]) ++ ps ++ suf := ih (k + 1) (pre ++ [v]) suf (by simp [h])
        _ = pre ++ (v :: ps) ++ suf := by simp

/-- C4 (code_bug): the interleaving of lines 371-376 does place the param
values at the fixed positions — after dropping the first supplied element,
the params are spliced in right after the next one — but the generator
stage is never invoked: for every state data and every supplied tuple, the
first resumption performs no stage invocation and no filesystem operation
and raises (TypeError from the malformed `generate_test_vector` call of
lines 368-370, IndexError for an empty tuple).  In particular the class
docstring call `send(2, 1000, np.float32)` crashes. -/
theorem c4_generate_stage_never_invoked :
    (∀ (np a : PyVal) (rest ps : List PyVal),
      interleave_vector_params (np :: a :: rest) ps = a :: (ps ++ rest)) ∧
    (∀ (odir : String) (m : MetaData) (p : Params) (t : List PyVal)
        (env : ExtEnv),
      (sendStep (.awaitGenerate odir m p) t env).invoked = [] ∧
      (sendStep (.awaitGenerate odir m p) t env).fsOps = [] ∧
      ∃ e, (sendStep (.awaitGenerate odir m p) t env).res = .error e) ∧
    sendStep
        (.awaitGenerate "data/time/o-1.000_w-1.000"
          [("offset", .num 1), ("width", .num 1)] (.time ⟨1, 1⟩))
        [.int 2, .int 1000, .dtype .float32] (fun _ => true) =
      ⟨.crashed (.typeError
          "generate_test_vector got an unexpected keyword argument output_dir"),
        .error (.typeError
          "generate_test_vector got an unexpected keyword argument output_dir"),
        [], []⟩ := by
  refine ⟨?_, ?_, rfl⟩
  · intro np a rest ps
    have h := py_insert_fold_enumFrom ps 0 [a] rest (by simp)
    simpa [interleave_vector_params, List.enum] using h
  · intro odir m p t env
    cases t <;> simp [sendStep]

/-- No stage closure ever raises the specification's SequencingViolation:
every error produced by `callStage` is an ordinary Python error of the
invoked closure. -/
theorem callStage_result_not_seqviol (f : StageFn) (args : List PyVal)
    (env : ExtEnv) :
    (callStage f args env).result ≠ .error .sequencingViolation := by
  unfold callStage
  repeat' split
  all_goals simp only [apply_ite StageResult.result]
  all_goals try (split <;> simp)
  all_goals simp

/-- No stage closure ever writes a file: the only filesystem operation a
stage performs is the logged external command of the matlab channelize
closure. -/
theorem callStage_no_writeFile (f : StageFn) (args : List PyVal)
    (env : ExtEnv) :
    ∀ op ∈ (callStage f args env).fsOps, ∀ path, op ≠ .writeFile path := by
  unfold callStage
  repeat' split
  all_goals simp only [apply_ite StageResult.result]
  all_goals try (split <;> simp)
  all_goals simp

/-- C3 (code_bug): the closure the producer binds to `f` at line 380 is the
matlab channelize closure, and at the synthesize-arguments resumption the
producer invokes exactly that carried channelize closure — never a
synthesize stage — with the channelized file path prepended to the
supplied tuple. -/
theorem c3_synthesize_state_invokes_channelize :
    (∀ odir : String,
      producerStageF odir = .ok (.channelizeMatlab none odir)) ∧
    (∀ (odir : String) (m : MetaData) (ifp c : String) (t : List PyVal)
        (env : ExtEnv),
      (sendStep (.awaitSynthesize odir m ifp c (.channelizeMatlab none odir))
          t env).invoked =
        [(.channelizeMatlab none odir, .str c :: t)] ∧
      ∀ q ∈ (sendStep
          (.awaitSynthesize odir m ifp c (.channelizeMatlab none odir))
          t env).invoked,
        isSynthStage q.1 = false) := by
  refine ⟨fun odir => rfl, ?_⟩
  intro odir m ifp c t env
  cases h : (callStage (.channelizeMatlab none odir) (.str c :: t) env).result <;>
    constructor <;> simp [sendStep, h, isSynthStage]

/-- C5 counterexample: in state AWAIT_GENERATE_ARGS, supplying the
synthesize-stage tuple `(1024,)` is not rejected as a SequencingViolation:
the tuple is consumed (its head is read as the polarization count — an
empty tuple gives IndexError from that very read) and the resumption fails
with the TypeError of the malformed generate call instead. -/
theorem c5_counterexample :
    (sendStep
        (.awaitGenerate "data/time/o-1.000_w-1.000"
          [("offset", .num 1), ("width", .num 1)] (.time ⟨1, 1⟩))
        [.int 1024] (fun _ => true)).res ≠ .error .sequencingViolation ∧
    (sendStep
        (.awaitGenerate "data/time/o-1.000_w-1.000"
          [("offset", .num 1), ("width", .num 1)] (.time ⟨1, 1⟩))
        [.int 1024] (fun _ => true)).res =
      .error (.typeError
        "generate_test_vector got an unexpected keyword argument output_dir") ∧
    (sendStep
        (.awaitGenerate "data/time/o-1.000_w-1.000"
          [("offset", .num 1), ("width", .num 1)] (.time ⟨1, 1⟩))
        [] (fun _ => true)).res = .error .indexError := by
  refine ⟨by decide, rfl, rfl⟩

/-- C5 (corrected): the sequencer performs no validation of supplied
argument tuples.  No resumption ever raises a SequencingViolation, and at
the channelize and synthesize states whatever tuple is supplied is passed
straight into the invocation of the carried stage closure (with the prior
output prepended at the synthesize state); malformed tuples surface only
as the stage machinery's own errors. -/
theorem c5_no_tuple_validation :
    (∀ (s : ProdState) (t : List PyVal) (env : ExtEnv),
      (sendStep s t env).res ≠ .error .sequencingViolation) ∧
    (∀ (odir : String) (m : MetaData) (ifp : String) (f : StageFn)
        (t : List PyVal) (env : ExtEnv),
      (sendStep (.awaitChannelize odir m ifp f) t env).invoked = [(f, t)]) ∧
    (∀ (odir : String) (m : MetaData) (ifp c : String) (f : StageFn)
        (t : List PyVal) (env : ExtEnv),
      (sendStep (.awaitSynthesize odir m ifp c f) t env).invoked =
        [(f, .str c :: t)]) := by
  refine ⟨?_, ?_, ?_⟩
  · intro s t env
    cases s with
    | awaitGenerate odir m p => cases t <;> simp [sendStep]
    | awaitChannelize odir m ifp f =>
        have hc := callStage_result_not_seqviol f t env
        cases h : (callStage f t env).result with
        | error e =>
            simp only [sendStep, h]
            intro heq
            cases heq
            exact hc (by rw [h])
        | ok v => simp [sendStep, h]
    | awaitSynthesize odir m ifp c f =>
        have hc := callStage_result_not_seqviol f (.str c :: t) env
        cases h : (callStage f (.str c :: t) env).result with
        | error e =>
            simp only [sendStep, h]
            intro heq
            cases heq
            exact hc (by rw [h])
        | ok v => simp [sendStep, h]
    | finished m => simp [sendStep]
    | crashed e => simp [sendStep]
  · intro odir m ifp f t env
    cases h : (callStage f t env).result <;> simp [sendStep, h]
  · intro odir m ifp c f t env
    cases h : (callStage f (.str c :: t) env).result <;> simp [sendStep, h]

unseal Rat.mul Rat.add Rat.inv in
/-- C1 (code_bug): a first request for time-domain params
(offset=1.0, width=1.0) against an empty base directory takes the miss
branch, creating the cache subdirectory and suspending for generate
arguments — but no resumption ever writes any file (in particular no
metadata record: the producer only assigns the assembled record to
`self.meta_data` in memory), and the immediately following request for the
same key, finding the directory, crashes with FileNotFoundError trying to
read `meta.json` at the wrong relative path instead of returning the
record. -/
theorem c1_metadata_never_persisted :
    initProducer "data" (.time ⟨1, 1⟩) ⟨[], []⟩ =
      .ok (.awaitGenerate "data/time/o-1.000_w-1.000"
          [("offset", .num 1), ("width", .num 1)] (.time ⟨1, 1⟩),
        ⟨["data/time/o-1.000_w-1.000"], []⟩) ∧
    (∀ (s : ProdState) (t : List PyVal) (env : ExtEnv),
      ∀ op ∈ (sendStep s t env).fsOps, ∀ path, op ≠ .writeFile path) ∧
    initProducer "data" (.time ⟨1, 1⟩) ⟨["data/time/o-1.000_w-1.000"], []⟩ =
      .error (.fileNotFoundError "o-1.000_w-1.000/meta.json") := by
  refine ⟨by decide, ?_, by decide⟩
  intro s t env
  cases s with
  | awaitGenerate odir m p => cases t <;> simp [sendStep]
  | awaitChannelize odir m ifp f =>
      have hc := callStage_no_writeFile f t env
      cases h : (callStage f t env).result <;> simpa [sendStep, h] using hc
  | awaitSynthesize odir m ifp c f =>
      have hc := callStage_no_writeFile f (.str c :: t) env
      cases h : (callStage f (.str c :: t) env).result <;>
        simpa [sendStep, h] using hc
  | finished m => simp [sendStep]
  | crashed e => simp [sendStep]

unseal Rat.mul Rat.add Rat.inv in
/-- C2 (code_bug): the lookup does compute the canonical subdirectory
`base_dir/domain/formatted-params` and returns absent when it does not
exist, and a tuple promotes to the same named mapping — but when the
directory does exist, the record is opened at
`os.path.join(sub_dir, meta_data_file_name)`, a path relative to the
process working directory rather than inside the canonical subdirectory,
so the lookup crashes with FileNotFoundError even though the record sits
at the fixed relative path inside that very subdirectory. -/
theorem c2_lookup_reads_wrong_path :
    find_existing_test_data "data" .time (.dict (.time ⟨1, 1⟩)) ⟨[], []⟩ =
      .ok none ∧
    promote_params .time (.tup [1, 1]) = .ok (.time ⟨1, 1⟩) ∧
    find_existing_test_data "data" .time (.dict (.time ⟨1, 1⟩))
        ⟨["data/time/o-1.000_w-1.000"],
          [("data/time/o-1.000_w-1.000/meta.json",
            [("offset", .num 1), ("width", .num 1),
              ("input_file", .str "in.dump"),
              ("channelized_file", .str "chan.dump"),
              ("inverted_file", .str "inv.dump")])]⟩ =
      .error (.fileNotFoundError "o-1.000_w-1.000/meta.json") := by
  refine ⟨by decide, by decide, by decide⟩

/-- Writing `v` into cells `0, ..., m-1` of a length-`n` zero row in turn
fills a prefix of length `m` with `v`. -/
theorem pySetAll_fold (v z : α) :
    ∀ (m n : ℕ), m ≤ n →
      (List.range m).foldl (fun r i => r.set i v) (List.replicate n z) =
        List.replicate m v ++ List.replicate (n - m) z := by
  intro m
  induction m with
  | zero => intro n _; simp
  | succ m ih =>
      intro n hm
      rw [List.range_succ, List.foldl_append, ih n (by omega)]
      simp only [List.foldl_cons, List.foldl_nil]
      obtain ⟨k, hk⟩ : ∃ k, n - m = k + 1 := ⟨n - m - 1, by omega⟩
      rw [List.set_append_right _ _ (by simp), hk]
      simp only [List.length_replicate, Nat.sub_self, List.replicate_succ,
        List.set_cons_zero]
      have h2 : n - (m + 1) = k := by omega
      rw [h2, show List.replicate m v ++ v :: List.replicate k z =
          (List.replicate m v ++ [v]) ++ List.replicate k z by simp,
        ← List.replicate_succ', List.replicate_succ]

/-- The per-sample polarization row after the loop: every cell holds the
sample. -/
theorem pySetAll_replicate (v z : α) (n : ℕ) :
    pySetAll (List.replicate n z) v n = List.replicate n v := by
  have h := pySetAll_fold v z n n le_rfl
  simpa [pySetAll] using h

/-- C10 (confirmed): for both domains, the python backend produces an
output array of shape `(n_bins, 1, n_pol)` — one plane per generated
sample, each holding a single row of `n_pol` cells — in which every
polarization cell carries the same sample, and the generated signal has
exactly `n_bins` samples. -/
theorem c10_python_output_replicates_signal :
    ∀ (n : ℕ) (freqs phases : List ℚ) (bin_offset : ℚ) (offsets : List ℚ)
      (widths : List ℤ) (n_pol : ℕ) (sigF : List CSample) (sigT : List ℚ),
      complex_sinusoid n (.lists freqs phases) bin_offset = .ok sigF →
      time_domain_impulse n (.lists offsets widths) = .ok sigT →
      generate_output_data_freq n (.lists freqs phases) bin_offset n_pol =
          .ok (sigF.map (fun s => [List.replicate n_pol s])) ∧
        sigF.length = n ∧
      generate_output_data_time n (.lists offsets widths) n_pol =
          .ok (sigT.map (fun s => [List.replicate n_pol s])) ∧
        sigT.length = n := by
  intro n freqs phases bin_offset offsets widths n_pol sigF sigT hF hT
  have houtF : python_output_data sigF ([] : CSample) n_pol =
      sigF.map (fun s => [List.replicate n_pol s]) := by
    unfold python_output_data
    exact List.map_congr_left (fun s _ => by rw [pySetAll_replicate])
  have houtT : python_output_data sigT (0 : ℚ) n_pol =
      sigT.map (fun s => [List.replicate n_pol s]) := by
    unfold python_output_data
    exact List.map_congr_left (fun s _ => by rw [pySetAll_replicate])
  have hinv : ∀ (l : List (ℚ × ℤ)) (sig : List ℚ),
      (l.foldl (fun sig ow => pySliceAssign sig (pyInt (ow.1 * (n : ℚ)))
        (pyInt (ow.1 * (n : ℚ)) + ow.2) 1) sig).length = sig.length := by
    intro l
    induction l with
    | nil => intro sig; rfl
    | cons ow l ih =>
        intro sig
        simp only [List.foldl_cons]
        rw [ih]
        simp [pySliceAssign]
  have hlenF : sigF.length = n := by
    by_cases h : freqs.length ≤ phases.length
    · simp only [complex_sinusoid, promoteFP, if_pos h, Except.ok.injEq] at hF
      rw [← hF, List.length_map, List.length_range]
    · simp only [complex_sinusoid, promoteFP, if_neg h] at hF
      exact absurd hF (by simp)
  have hlenT : sigT.length = n := by
    by_cases h : offsets.length ≤ widths.length
    · simp only [time_domain_impulse, promoteOW, if_pos h, Except.ok.injEq] at hT
      rw [← hT, hinv, List.length_replicate]
    · simp only [time_domain_impulse, promoteOW, if_neg h] at hT
      exact absurd hT (by simp)
  refine ⟨?_, hlenF, ?_, hlenT⟩
  · unfold generate_output_data_freq
    rw [hF]
    simp only [Except.map]
    rw [houtF]
  · unfold generate_output_data_time
    rw [hT]
    simp only [Except.map]
    rw [houtT]

unseal Rat.mul Rat.add Rat.inv in
/-- Witness for `c10_python_output_replicates_signal` at n=1, freqs=[0.1],
phases=[0], bin_offset=0, offsets=[0.2], widths=[1], n_pol=1. -/
theorem c10_python_output_replicates_signal_witness :
    generate_output_data_freq 1 (.lists [1/10] [0]) 0 1 =
        .ok (([[(⟨0, 0⟩ : PhasorTerm)]] : List CSample).map
          (fun s => [List.replicate 1 s])) ∧
      ([[(⟨0, 0⟩ : PhasorTerm)]] : List CSample).length = 1 ∧
    generate_output_data_time 1 (.lists [1/5] [1]) 1 =
        .ok (([1] : List ℚ).map (fun s => [List.replicate 1 s])) ∧
      ([(1 : ℚ)] : List ℚ).length = 1 :=
  c10_python_output_replicates_signal 1 [1/10] [0] 0 [1/5] [1] 1
    [[⟨0, 0⟩]] [1] (by decide) (by decide)

/-- Reading back a cell of a mapped range. -/
theorem getD_range_map (n t : ℕ) (g : ℕ → ℚ) (h : t < n) :
    ((List.range n).map g).getD t 0 = g t := by
  simp [List.getD_eq_getElem?_getD, List.getElem?_range h]

/-- `pySliceAssign` on a signal presented as a mapped range is the mapped
range of the pointwise overwrite. -/
theorem pySliceAssign_range_map (n : ℕ) (g : ℕ → ℚ) (start stop : ℤ)
    (v : ℚ) :
    pySliceAssign ((List.range n).map g) start stop v =
      (List.range n).map (fun t =>
        if pyNormIdx n start ≤ t ∧ t < pyNormIdx n stop then v else g t) := by
  unfold pySliceAssign
  rw [List.length_map, List.length_range]
  apply List.map_congr_left
  intro t ht
  have ht' : t < n := List.mem_range.mp ht
  by_cases hc : pyNormIdx n start ≤ t ∧ t < pyNormIdx n stop <;>
    simp [hc, List.getElem?_range ht']

/-- Normalisation of a nonnegative slice endpoint is clamping to the
length. -/
theorem pyNormIdx_nonneg (n : ℕ) (i : ℤ) (hi : 0 ≤ i) :
    pyNormIdx n i = (min i (n : ℤ)).toNat := by
  unfold pyNormIdx
  rw [if_neg (not_lt.mpr hi), max_eq_right hi]

/-- For a nonnegative start, a nonnegative width and an index inside the
signal, membership in the normalised slice is exactly membership in the
ideal half-open interval. -/
theorem pyNormIdx_mem_iff (n t : ℕ) (b w : ℤ) (hb : 0 ≤ b) (hw : 0 ≤ w)
    (ht : t < n) :
    (pyNormIdx n b ≤ t ∧ t < pyNormIdx n (b + w)) ↔
      (b ≤ (t : ℤ) ∧ (t : ℤ) < b + w) := by
  rw [pyNormIdx_nonneg n b hb, pyNormIdx_nonneg n (b + w) (by omega)]
  omega

/-- Python `int` is the floor on nonnegative inputs. -/
theorem pyInt_of_nonneg (q : ℚ) (h : 0 ≤ q) : pyInt q = ⌊q⌋ := by
  simp [pyInt, h]

/-- The slice-overwrite fold of `time_domain_impulse`, characterised: a
cell is 1 exactly when some processed impulse covers it or it was already
1. -/
theorem impulse_fold (n : ℕ) :
    ∀ (l : List (ℚ × ℤ)) (g : ℕ → Bool),
      (∀ p ∈ l, 0 ≤ p.1 ∧ 0 ≤ p.2) →
      l.foldl (fun sig ow => pySliceAssign sig (pyInt (ow.1 * (n : ℚ)))
          (pyInt (ow.1 * (n : ℚ)) + ow.2) 1)
        ((List.range n).map (fun t => if g t then (1 : ℚ) else 0)) =
      (List.range n).map (fun t =>
        if (g t || l.any (fun p => decide ((⌊p.1 * (n : ℚ)⌋ ≤ (t : ℤ)) ∧
            ((t : ℤ) < ⌊p.1 * (n : ℚ)⌋ + p.2)))) then (1 : ℚ) else 0) := by
  intro l
  induction l with
  | nil => intro g _; simp
  | cons ow l ih =>
      intro g hmem
      obtain ⟨hb, hw⟩ := hmem ow (by simp)
      have hbn : (0 : ℚ) ≤ ow.1 * (n : ℚ) :=
        mul_nonneg hb (by positivity)
      have hfl : (0 : ℤ) ≤ ⌊ow.1 * (n : ℚ)⌋ := Int.floor_nonneg.mpr hbn
      simp only [List.foldl_cons]
      rw [pySliceAssign_range_map]
      have hstep : (List.range n).map (fun t =>
          if pyNormIdx n (pyInt (ow.1 * (n : ℚ))) ≤ t ∧
              t < pyNormIdx n (pyInt (ow.1 * (n : ℚ)) + ow.2) then (1 : ℚ)
          else if g t then 1 else 0) =
        (List.range n).map (fun t =>
          if (g t || decide ((⌊ow.1 * (n : ℚ)⌋ ≤ (t : ℤ)) ∧
              ((t : ℤ) < ⌊ow.1 * (n : ℚ)⌋ + ow.2))) then (1 : ℚ) else 0) := by
        apply List.map_congr_left
        intro t ht
        have ht' := List.mem_range.mp ht
        rw [pyInt_of_nonneg _ hbn]
        have hcond := pyNormIdx_mem_iff n t ⌊ow.1 * (n : ℚ)⌋ ow.2 hfl hw ht'
        by_cases hc : (⌊ow.1 * (n : ℚ)⌋ ≤ (t : ℤ)) ∧
            ((t : ℤ) < ⌊ow.1 * (n : ℚ)⌋ + ow.2)
        · rw [if_pos (hcond.mpr hc)]
          simp [hc]
        · rw [if_neg (fun hx => hc (hcond.mp hx))]
          simp [hc]
      rw [hstep, ih _ (fun p hp => hmem p (by simp [hp]))]
      apply List.map_congr_left
      intro t _
      congr 1
      simp [Bool.or_assoc]

unseal Rat.mul Rat.add Rat.inv in
/-- C8 (confirmed): for every n, offsets (nonnegative fractions of n) and
widths (nonnegative, with the width list at least as long as the offset
list), `time_domain_impulse` yields a signal whose sample t is 1 exactly
when some impulse interval `[⌊offsets[i]*n⌋, ⌊offsets[i]*n⌋ + widths[i])`
covers t, and 0 otherwise — overlapping impulses overwrite with the same
value 1, never sum; and `time_domain_impulse(10, [0.2], [3])` yields 1 at
indices 2, 3, 4 and 0 elsewhere. -/
theorem c8_impulse_placement :
    (∀ (n : ℕ) (offsets : List ℚ) (widths : List ℤ),
      offsets.length ≤ widths.length →
      (∀ o ∈ offsets, 0 ≤ o) → (∀ w ∈ widths, 0 ≤ w) →
      time_domain_impulse n (.lists offsets widths) =
        .ok ((List.range n).map (fun (t : ℕ) =>
          if (offsets.zip widths).any (fun p =>
              decide ((⌊p.1 * (n : ℚ)⌋ ≤ (t : ℤ)) ∧
                ((t : ℤ) < ⌊p.1 * (n : ℚ)⌋ + p.2)))
          then (1 : ℚ) else 0))) ∧
    time_domain_impulse 10 (.lists [1/5] [3]) =
      .ok [0, 0, 1, 1, 1, 0, 0, 0, 0, 0] := by
  constructor
  · intro n offsets widths hlen ho hw
    simp only [time_domain_impulse, promoteOW, if_pos hlen, Except.ok.injEq]
    have hzero : (List.replicate n (0 : ℚ)) =
        (List.range n).map (fun t => if (false : Bool) then (1 : ℚ) else 0) := by
      simp
    rw [hzero, impulse_fold n (offsets.zip widths) _ (fun p hp => by
      obtain ⟨h1, h2⟩ := List.of_mem_zip hp
      exact ⟨ho p.1 h1, hw p.2 h2⟩)]
    refine List.map_congr_left (fun t _ => ?_)
    rw [Bool.false_or]
  · decide

unseal Rat.mul Rat.add Rat.inv in
/-- Witness for `c8_impulse_placement` at n=10, offsets=[0.2], widths=[3]. -/
theorem c8_impulse_placement_witness :
    time_domain_impulse 10 (.lists [1/5] [3]) =
      .ok ((List.range 10).map (fun (t : ℕ) =>
        if (([1/5] : List ℚ).zip ([3] : List ℤ)).any (fun p =>
            decide ((⌊p.1 * (10 : ℚ)⌋ ≤ (t : ℤ)) ∧
              ((t : ℤ) < ⌊p.1 * (10 : ℚ)⌋ + p.2)))
        then (1 : ℚ) else 0)) :=
  c8_impulse_placement.1 10 [1/5] [3] (by decide) (by decide) (by decide)

/-- Witness for `c1_metadata_never_persisted`: the one filesystem operation
of a concrete channelize-state resumption is a logged command run, not a
file write. -/
theorem c1_metadata_never_persisted_witness :
    FSOp.runCmd "build/channelize in 8 8/7 firout.dump o 1" "o/out.log" ∈
      (sendStep
        (.awaitChannelize "o" [] "i" (.channelizeMatlab (some "out.dump") "o"))
        [.str "in", .int 8, .str "8/7", .str "fir"] (fun _ => true)).fsOps ∧
    FSOp.runCmd "build/channelize in 8 8/7 firout.dump o 1" "o/out.log" ≠
      FSOp.writeFile "meta.json" :=
  ⟨by decide,
    c1_metadata_never_persisted.2.1
      (.awaitChannelize "o" [] "i" (.channelizeMatlab (some "out.dump") "o"))
      [.str "in", .int 8, .str "8/7", .str "fir"] (fun _ => true)
      (FSOp.runCmd "build/channelize in 8 8/7 firout.dump o 1" "o/out.log")
      (by decide) "meta.json"⟩

/-- Witness for `c3_synthesize_state_invokes_channelize` at a concrete
synthesize-state resumption. -/
theorem c3_synthesize_state_invokes_channelize_witness :
    (sendStep (.awaitSynthesize "o" [] "i" "c" (.channelizeMatlab none "o"))
        [.int 1024] (fun _ => true)).invoked =
      [(.channelizeMatlab none "o", [.str "c", .int 1024])] ∧
    isSynthStage
      ((StageFn.channelizeMatlab none "o", [PyVal.str "c", .int 1024])).1 =
      false :=
  ⟨(c3_synthesize_state_invokes_channelize.2 "o" [] "i" "c" [.int 1024]
      (fun _ => true)).1,
    (c3_synthesize_state_invokes_channelize.2 "o" [] "i" "c" [.int 1024]
      (fun _ => true)).2
      (StageFn.channelizeMatlab none "o", [PyVal.str "c", .int 1024])
      (by decide)⟩

/-- Witness for `c5_no_tuple_validation` at a concrete resumption. -/
theorem c5_no_tuple_validation_witness :
    (sendStep (.finished []) [] (fun _ => true)).res ≠
      .error .sequencingViolation :=
  c5_no_tuple_validation.1 (.finished []) [] (fun _ => true)
